import Mathlib

/-!
Formal model of the QSE-Architect-AI workflow core.

The repository is a single-page React application (src/App.tsx) orchestrating a
five-stage quantitative-spatial-economics workflow.  This file gives a shallow
embedding of the parts of the source the claims are about:

* the stage enumeration and its fixed linear order
  (src/types.ts `AppStage`, src/StageNavigator.tsx `STAGES`);
* the component state held by `App` and the five button handlers
  (src/App.tsx), modelled as a labelled transition system: each asynchronous
  handler is split into a `start` event (the user clicking the button, guarded
  by the conditions under which the button is rendered and enabled) and a
  `complete` event (the awaited collaborator call resolving, parameterised by
  the collaborator's outcome);
* the collaborator wrappers that shape those outcomes
  (src/services/geminiService.ts), in particular `analyzeEquilibrium`, which
  catches its own errors and returns a fixed string;
* the baseline/counterfactual merge performed by `DataVisualizer`
  (src/components/DataVisualizer.tsx, the `chartData` computation).

Collaborator responses that the source parses with `JSON.parse` and stores
without further inspection are modelled by a small JSON value type; numeric
fields are modelled as rationals.
-/

namespace QSEArchitect

/-- The five workflow stages, from the `AppStage` enum in src/types.ts. -/
inductive AppStage
  | PROBLEM_DEFINITION
  | MODEL_CONSTRUCTION
  | DATA_GENERATION
  | ESTIMATION_ANALYSIS
  | COUNTERFACTUAL
deriving DecidableEq

/-- Immediate successor in the fixed linear order of stages
(the order of the `STAGES` array in src/StageNavigator.tsx). -/
def stageNext : AppStage → Option AppStage
  | .PROBLEM_DEFINITION => some .MODEL_CONSTRUCTION
  | .MODEL_CONSTRUCTION => some .DATA_GENERATION
  | .DATA_GENERATION => some .ESTIMATION_ANALYSIS
  | .ESTIMATION_ANALYSIS => some .COUNTERFACTUAL
  | .COUNTERFACTUAL => none

/-- A parsed JSON value, the result of the `JSON.parse` calls in
src/services/geminiService.ts.  The source stores these values into component
state typed as `SimulationResult` without any runtime check, so the model keeps
them as raw JSON. -/
inductive Json
  | null
  | bool (b : Bool)
  | num (v : ℚ)
  | str (s : String)
  | arr (elems : List Json)
  | obj (fields : List (String × Json))

/-- Lookup of a top-level field of a JSON object (none on non-objects). -/
def Json.getField : Json → String → Option Json
  | .obj fields, k => (fields.find? (fun p => p.1 == k)).map (fun p => p.2)
  | _, _ => none

/-- Whether a JSON object field list has a field named `k`. -/
def hasField (fields : List (String × Json)) (k : String) : Bool :=
  (fields.find? (fun p => p.1 == k)).isSome

/-- Whether a JSON object field list has a numeric field named `k`. -/
def numField (fields : List (String × Json)) (k : String) : Bool :=
  match fields.find? (fun p => p.1 == k) with
  | some (_, Json.num _) => true
  | _ => false

/-- Whether a JSON value is a well-formed location record: an object carrying
the seven required fields, with numeric values where numbers are expected. -/
def locationOk (j : Json) : Bool :=
  match j with
  | .obj f =>
      hasField f "id" && hasField f "name" &&
      numField f "population" && numField f "wages" && numField f "rents" &&
      numField f "amenity" && numField f "productivity"
  | _ => false

/-- Modelled from the spec: the Result Schema Validator of spec section 4.1.
The source under src/ contains no such client-side validator (the parsed JSON
is stored unchanged); this definition follows the spec's words so that the
code path can be compared against it: the top-level value must be an object,
`locations` must be present and a sequence of well-formed location records,
`parameters` must be present and a mapping, and `totalWelfare` may be absent. -/
def specSchemaValidator (j : Json) : Bool :=
  match j with
  | .obj _ =>
      (match j.getField "locations" with
       | some (.arr locs) => locs.all locationOk
       | _ => false)
      &&
      (match j.getField "parameters" with
       | some (.obj _) => true
       | _ => false)
  | _ => false

/-- The component state held by `App` (src/App.tsx, the `useState` hooks),
without the pure view-mode toggle (`viewMode` only switches the rendering of
the model text and is not workflow state). -/
structure AppState where
  stage : AppStage
  problemInput : String
  isProcessing : Bool
  modelLogic : String
  baselineData : Option Json
  analysisReport : String
  counterfactualInput : String
  counterfactualData : Option Json

/-- Which asynchronous handler, if any, is awaiting its collaborator call.
The source keeps this implicit in the JavaScript event loop; the model makes
it explicit so that in-flight behaviour can be stated. -/
inductive Pending
  | idle
  | problemSubmit
  | generateData
  | proceedToAnalysis
  | runCounterfactual
deriving DecidableEq

/-- Full system state: the React component state plus the pending call. -/
structure SysState where
  app : AppState
  pending : Pending

/-- Failure labels for rejected user attempts, following the spec's error
taxonomy (section 7).  The source has no error values for these situations:
an attempt rejected here corresponds in the source to a button that is not
rendered at the current stage (`IllegalTransitionError`, `MissingPayloadError`),
a button disabled or hidden while `isProcessing` is set (`BusyError`), a
handler returning early on blank input (`EmptyInputError`), or a caught
rejection of the awaited collaborator call (`CollaboratorError`).
`NoPendingCall` is a model artifact marking a completion event that has no
matching outstanding call; it cannot occur in the source. -/
inductive AppError
  | IllegalTransitionError
  | BusyError
  | EmptyInputError
  | MissingPayloadError
  | CollaboratorError
  | NoPendingCall
deriving DecidableEq

/-- Whether a user-supplied text is blank: nothing but whitespace remains, the
condition the source tests with `!text.trim()` (JavaScript `trim` strips
whitespace from both ends, so the trimmed text is empty exactly when every
character is whitespace). -/
def isBlank (s : String) : Bool :=
  s.data.all Char.isWhitespace

/-- The collaborator wrapper `analyzeEquilibrium` of
src/services/geminiService.ts.  Its argument is the outcome of the underlying
API call: an exception, or `response.text` (which may be undefined or empty,
both falsy in the source's `response.text || default`).  The wrapper never
throws: its own catch block returns the fixed string
"Error generating analysis report.". -/
def analyzeEquilibrium (resp : Except Unit (Option String)) : String :=
  match resp with
  | .ok (some t) => if t = "" then "Analysis could not be generated." else t
  | .ok none => "Analysis could not be generated."
  | .error _ => "Error generating analysis report."

/-- Events of the system: user edits of the two text areas, the user clicking
one of the five buttons (`start...` for the asynchronous handlers,
`proceedToCounterfactual` for the synchronous one), and the resolution of an
outstanding collaborator call (`complete...`, carrying the call's outcome,
where `Except.error ()` is a thrown/rejected call). -/
inductive Event
  | editProblem (t : String)
  | editCounterfactual (t : String)
  | startProblemSubmit
  | completeProblemSubmit (r : Except Unit String)
  | startGenerateData
  | completeGenerateData (r : Except Unit Json)
  | startProceedToAnalysis
  | completeProceedToAnalysis (r : Except Unit (Option String))
  | proceedToCounterfactual
  | startRunCounterfactual
  | completeRunCounterfactual (r : Except Unit Json)

/-- One step of the system.  Returns the new state and, for a rejected
attempt, the failure label.  Guards are read off src/App.tsx:

* `editProblem` / `editCounterfactual`: the text areas are rendered only at
  their stage and are never disabled (they stay editable while processing);
* `startProblemSubmit`: button rendered only at PROBLEM_DEFINITION, with
  `disabled=isProcessing`; the handler returns early when
  `problemInput.trim()` is empty, before any call is made;
* `startGenerateData`: button rendered only at MODEL_CONSTRUCTION, with
  `disabled=isProcessing`;
* `startProceedToAnalysis`: button rendered only when stage is
  DATA_GENERATION, `baselineData` is set and not `isProcessing`; the handler
  returns early without `baselineData`; when `analysisReport` is already
  non-empty the handler skips the collaborator call and advances
  synchronously (no pending call is created);
* `proceedToCounterfactual`: button rendered only at ESTIMATION_ANALYSIS with
  `baselineData` set; synchronous, no disabled attribute;
* `startRunCounterfactual`: button rendered only at COUNTERFACTUAL with
  `baselineData` set, `disabled=isProcessing`; the handler returns early when
  `baselineData` is missing or the shock text is blank.

Completion events apply the handler's code after the `await`: on success the
new data is committed and (where the handler does so) the stage advanced; on a
caught rejection the handler only alerts, so no workflow field changes; in
both cases the `finally` block clears `isProcessing`.  When several guards
reject at once the source simply offers no clickable control; the model
reports the busy rejection first, then the stage rejection, then the
handler-internal ones, matching the spec's attribution of `BusyError` to any
attempt made while a call is outstanding. -/
def step (s : SysState) : Event → SysState × Option AppError
  | .editProblem t =>
      if s.app.stage ≠ .PROBLEM_DEFINITION then (s, some .IllegalTransitionError)
      else ({ s with app := { s.app with problemInput := t } }, none)
  | .editCounterfactual t =>
      if s.app.stage ≠ .COUNTERFACTUAL then (s, some .IllegalTransitionError)
      else ({ s with app := { s.app with counterfactualInput := t } }, none)
  | .startProblemSubmit =>
      if s.app.isProcessing then (s, some .BusyError)
      else if s.app.stage ≠ .PROBLEM_DEFINITION then (s, some .IllegalTransitionError)
      else if isBlank s.app.problemInput then (s, some .EmptyInputError)
      else ({ app := { s.app with isProcessing := true }, pending := .problemSubmit }, none)
  | .completeProblemSubmit r =>
      if s.pending = .problemSubmit then
        match r with
        | .ok logic =>
            ({ app := { s.app with
                          modelLogic := logic
                          stage := .MODEL_CONSTRUCTION
                          isProcessing := false }
               pending := .idle }, none)
        | .error _ =>
            ({ app := { s.app with isProcessing := false }, pending := .idle },
             some .CollaboratorError)
      else (s, some .NoPendingCall)
  | .startGenerateData =>
      if s.app.isProcessing then (s, some .BusyError)
      else if s.app.stage ≠ .MODEL_CONSTRUCTION then (s, some .IllegalTransitionError)
      else ({ app := { s.app with isProcessing := true }, pending := .generateData }, none)
  | .completeGenerateData r =>
      if s.pending = .generateData then
        match r with
        | .ok data =>
            ({ app := { s.app with
                          baselineData := some data
                          stage := .DATA_GENERATION
                          isProcessing := false }
               pending := .idle }, none)
        | .error _ =>
            ({ app := { s.app with isProcessing := false }, pending := .idle },
             some .CollaboratorError)
      else (s, some .NoPendingCall)
  | .startProceedToAnalysis =>
      if s.app.isProcessing then (s, some .BusyError)
      else if s.app.stage ≠ .DATA_GENERATION then (s, some .IllegalTransitionError)
      else if s.app.baselineData.isNone then (s, some .MissingPayloadError)
      else if s.app.analysisReport ≠ "" then
        ({ s with app := { s.app with stage := .ESTIMATION_ANALYSIS } }, none)
      else ({ app := { s.app with isProcessing := true }, pending := .proceedToAnalysis }, none)
  | .completeProceedToAnalysis r =>
      if s.pending = .proceedToAnalysis then
        ({ app := { s.app with
                      analysisReport := analyzeEquilibrium r
                      stage := .ESTIMATION_ANALYSIS
                      isProcessing := false }
           pending := .idle }, none)
      else (s, some .NoPendingCall)
  | .proceedToCounterfactual =>
      if s.app.stage ≠ .ESTIMATION_ANALYSIS then (s, some .IllegalTransitionError)
      else if s.app.baselineData.isNone then (s, some .MissingPayloadError)
      else ({ s with app := { s.app with stage := .COUNTERFACTUAL } }, none)
  | .startRunCounterfactual =>
      if s.app.isProcessing then (s, some .BusyError)
      else if s.app.stage ≠ .COUNTERFACTUAL then (s, some .IllegalTransitionError)
      else if s.app.baselineData.isNone then (s, some .MissingPayloadError)
      else if isBlank s.app.counterfactualInput then (s, some .EmptyInputError)
      else ({ app := { s.app with isProcessing := true }, pending := .runCounterfactual }, none)
  | .completeRunCounterfactual r =>
      if s.pending = .runCounterfactual then
        match r with
        | .ok cfData =>
            ({ app := { s.app with
                          counterfactualData := some cfData
                          isProcessing := false }
               pending := .idle }, none)
        | .error _ =>
            ({ app := { s.app with isProcessing := false }, pending := .idle },
             some .CollaboratorError)
      else (s, some .NoPendingCall)

/-- The initial state: the `useState` initialisers of src/App.tsx, with no
call outstanding. -/
def initState : SysState :=
  { app :=
      { stage := .PROBLEM_DEFINITION
        problemInput := "Analyze the impact of a productivity shock in the largest city on population distribution."
        isProcessing := false
        modelLogic := ""
        baselineData := none
        analysisReport := ""
        counterfactualInput := "Increase productivity in City A by 20%"
        counterfactualData := none }
    pending := .idle }

/-- Reachable system states: the initial state and everything the step
function can produce from a reachable state (rejected attempts return the
state unchanged, so closing under all events is harmless). -/
inductive Reachable : SysState → Prop
  | init : Reachable initState
  | next {s : SysState} (e : Event) : Reachable s → Reachable (step s e).1

/-- The stage at which each pending call was started, and the fact that the
in-flight flag is set while a call is outstanding. -/
def Inv (s : SysState) : Prop :=
  (s.pending = .problemSubmit →
      s.app.stage = .PROBLEM_DEFINITION ∧ s.app.isProcessing = true) ∧
  (s.pending = .generateData →
      s.app.stage = .MODEL_CONSTRUCTION ∧ s.app.isProcessing = true) ∧
  (s.pending = .proceedToAnalysis →
      s.app.stage = .DATA_GENERATION ∧ s.app.isProcessing = true) ∧
  (s.pending = .runCounterfactual →
      s.app.stage = .COUNTERFACTUAL ∧ s.app.isProcessing = true)

theorem inv_init : Inv initState := by
  refine ⟨?_, ?_, ?_, ?_⟩ <;> intro h <;> simp [initState] at h

theorem inv_step (s : SysState) (e : Event) (h : Inv s) : Inv (step s e).1 := by
  obtain ⟨h1, h2, h3, h4⟩ := h
  cases e with
  | editProblem t =>
      simp only [step]
      split_ifs with hs
      · exact ⟨h1, h2, h3, h4⟩
      · exact ⟨h1, h2, h3, h4⟩
  | editCounterfactual t =>
      simp only [step]
      split_ifs with hs
      · exact ⟨h1, h2, h3, h4⟩
      · exact ⟨h1, h2, h3, h4⟩
  | startProblemSubmit =>
      simp only [step]
      split_ifs with hb hs he
      · exact ⟨h1, h2, h3, h4⟩
      · exact ⟨h1, h2, h3, h4⟩
      · exact ⟨h1, h2, h3, h4⟩
      · refine ⟨fun _ => ⟨by simpa using hs, rfl⟩, ?_, ?_, ?_⟩ <;> intro hp <;> simp at hp
  | completeProblemSubmit r =>
      simp only [step]
      split_ifs with hp
      · cases r with
        | ok v =>
            refine ⟨?_, ?_, ?_, ?_⟩ <;> intro hq <;> simp at hq
        | error _ =>
            refine ⟨?_, ?_, ?_, ?_⟩ <;> intro hq <;> simp at hq
      · exact ⟨h1, h2, h3, h4⟩
  | startGenerateData =>
      simp only [step]
      split_ifs with hb hs
      · exact ⟨h1, h2, h3, h4⟩
      · exact ⟨h1, h2, h3, h4⟩
      · refine ⟨?_, fun _ => ⟨by simpa using hs, rfl⟩, ?_, ?_⟩ <;> intro hp <;> simp at hp
  | completeGenerateData r =>
      simp only [step]
      split_ifs with hp
      · cases r with
        | ok v =>
            refine ⟨?_, ?_, ?_, ?_⟩ <;> intro hq <;> simp at hq
        | error _ =>
            refine ⟨?_, ?_, ?_, ?_⟩ <;> intro hq <;> simp at hq
      · exact ⟨h1, h2, h3, h4⟩
  | startProceedToAnalysis =>
      simp only [step]
      split_ifs with hb hs hd hr
      · exact ⟨h1, h2, h3, h4⟩
      · exact ⟨h1, h2, h3, h4⟩
      · exact ⟨h1, h2, h3, h4⟩
      · -- memoised branch: only the stage changes, and no call is pending
        -- (the busy guard rules out every outstanding call)
        refine ⟨?_, ?_, ?_, ?_⟩ <;> intro hp
        · exact absurd (h1 hp).2 (by simpa using hb)
        · exact absurd (h2 hp).2 (by simpa using hb)
        · exact absurd (h3 hp).2 (by simpa using hb)
        · exact absurd (h4 hp).2 (by simpa using hb)
      · refine ⟨?_, ?_, fun _ => ⟨by simpa using hs, rfl⟩, ?_⟩ <;> intro hp <;> simp at hp
  | completeProceedToAnalysis r =>
      simp only [step]
      split_ifs with hp
      · refine ⟨?_, ?_, ?_, ?_⟩ <;> intro hq <;> simp at hq
      · exact ⟨h1, h2, h3, h4⟩
  | proceedToCounterfactual =>
      simp only [step]
      split_ifs with hs hd
      · exact ⟨h1, h2, h3, h4⟩
      · exact ⟨h1, h2, h3, h4⟩
      · -- only the stage changes; any outstanding call would have been started
        -- at a stage other than ESTIMATION_ANALYSIS, against the stage guard
        have hEA : s.app.stage = .ESTIMATION_ANALYSIS := by simpa using hs
        refine ⟨?_, ?_, ?_, ?_⟩ <;> intro hp
        · exact absurd ((h1 hp).1.symm.trans hEA) (by simp)
        · exact absurd ((h2 hp).1.symm.trans hEA) (by simp)
        · exact absurd ((h3 hp).1.symm.trans hEA) (by simp)
        · exact absurd ((h4 hp).1.symm.trans hEA) (by simp)
  | startRunCounterfactual =>
      simp only [step]
      split_ifs with hb hs hd he
      · exact ⟨h1, h2, h3, h4⟩
      · exact ⟨h1, h2, h3, h4⟩
      · exact ⟨h1, h2, h3, h4⟩
      · exact ⟨h1, h2, h3, h4⟩
      · refine ⟨?_, ?_, ?_, fun _ => ⟨by simpa using hs, rfl⟩⟩ <;> intro hp <;> simp at hp
  | completeRunCounterfactual r =>
      simp only [step]
      split_ifs with hp
      · cases r with
        | ok v =>
            refine ⟨?_, ?_, ?_, ?_⟩ <;> intro hq <;> simp at hq
        | error _ =>
            refine ⟨?_, ?_, ?_, ?_⟩ <;> intro hq <;> simp at hq
      · exact ⟨h1, h2, h3, h4⟩

theorem reachable_inv (s : SysState) (h : Reachable s) : Inv s := by
  induction h with
  | init => exact inv_init
  | next e _ ih => exact inv_step _ e ih

/-- The stage a user-initiated operation tries to enter: the `setStage` target
hard-wired into each handler of src/App.tsx.  Completions, edits and
`runCounterfactual` (which never changes the stage) have no target. -/
def opTarget : Event → Option AppStage
  | .startProblemSubmit => some .MODEL_CONSTRUCTION
  | .startGenerateData => some .DATA_GENERATION
  | .startProceedToAnalysis => some .ESTIMATION_ANALYSIS
  | .proceedToCounterfactual => some .COUNTERFACTUAL
  | _ => none

theorem stageNext_eq_MC (st : AppStage) :
    stageNext st = some AppStage.MODEL_CONSTRUCTION ↔ st = AppStage.PROBLEM_DEFINITION := by
  cases st <;> simp [stageNext]

theorem stageNext_eq_DG (st : AppStage) :
    stageNext st = some AppStage.DATA_GENERATION ↔ st = AppStage.MODEL_CONSTRUCTION := by
  cases st <;> simp [stageNext]

theorem stageNext_eq_EA (st : AppStage) :
    stageNext st = some AppStage.ESTIMATION_ANALYSIS ↔ st = AppStage.DATA_GENERATION := by
  cases st <;> simp [stageNext]

theorem stageNext_eq_CF (st : AppStage) :
    stageNext st = some AppStage.COUNTERFACTUAL ↔ st = AppStage.ESTIMATION_ANALYSIS := by
  cases st <;> simp [stageNext]

theorem stage_step_succ (s : SysState) (hInv : Inv s) (e : Event) :
    (step s e).1.app.stage = s.app.stage ∨
      some (step s e).1.app.stage = stageNext s.app.stage := by
  obtain ⟨h1, h2, h3, h4⟩ := hInv
  cases e with
  | editProblem t =>
      simp only [step]; split_ifs <;> left <;> rfl
  | editCounterfactual t =>
      simp only [step]; split_ifs <;> left <;> rfl
  | startProblemSubmit =>
      simp only [step]; split_ifs <;> left <;> rfl
  | completeProblemSubmit r =>
      simp only [step]
      split_ifs with hp
      · cases r with
        | ok v =>
            right
            have hst := (h1 hp).1
            simp [hst, stageNext]
        | error e => left; rfl
      · left; rfl
  | startGenerateData =>
      simp only [step]; split_ifs <;> left <;> rfl
  | completeGenerateData r =>
      simp only [step]
      split_ifs with hp
      · cases r with
        | ok v =>
            right
            have hst := (h2 hp).1
            simp [hst, stageNext]
        | error e => left; rfl
      · left; rfl
  | startProceedToAnalysis =>
      simp only [step]
      split_ifs with hb hs hd hr
      · left; rfl
      · left; rfl
      · left; rfl
      · right
        have hst : s.app.stage = .DATA_GENERATION := by simpa using hs
        simp [hst, stageNext]
      · left; rfl
  | completeProceedToAnalysis r =>
      simp only [step]
      split_ifs with hp
      · right
        have hst := (h3 hp).1
        simp [hst, stageNext]
      · left; rfl
  | proceedToCounterfactual =>
      simp only [step]
      split_ifs with hs hd
      · left; rfl
      · left; rfl
      · right
        have hst : s.app.stage = .ESTIMATION_ANALYSIS := by simpa using hs
        simp [hst, stageNext]
  | startRunCounterfactual =>
      simp only [step]; split_ifs <;> left <;> rfl
  | completeRunCounterfactual r =>
      simp only [step]
      split_ifs with hp
      · cases r with
        | ok v => left; rfl
        | error e => left; rfl
      · left; rfl

theorem wrong_target_rejected (s : SysState) (e : Event) (t : AppStage)
    (ht : opTarget e = some t) (hne : stageNext s.app.stage ≠ some t) :
    (step s e).1 = s ∧ (step s e).2.isSome = true := by
  cases e with
  | editProblem u => simp [opTarget] at ht
  | editCounterfactual u => simp [opTarget] at ht
  | completeProblemSubmit r => simp [opTarget] at ht
  | completeGenerateData r => simp [opTarget] at ht
  | completeProceedToAnalysis r => simp [opTarget] at ht
  | completeRunCounterfactual r => simp [opTarget] at ht
  | startRunCounterfactual => simp [opTarget] at ht
  | startProblemSubmit =>
      injection ht with ht; subst ht
      have hst : s.app.stage ≠ .PROBLEM_DEFINITION := fun h => hne (by simp [h, stageNext])
      simp only [step]; split_ifs <;> simp_all
  | startGenerateData =>
      injection ht with ht; subst ht
      have hst : s.app.stage ≠ .MODEL_CONSTRUCTION := fun h => hne (by simp [h, stageNext])
      simp only [step]; split_ifs <;> simp_all
  | startProceedToAnalysis =>
      injection ht with ht; subst ht
      have hst : s.app.stage ≠ .DATA_GENERATION := fun h => hne (by simp [h, stageNext])
      simp only [step]; split_ifs <;> simp_all
  | proceedToCounterfactual =>
      injection ht with ht; subst ht
      have hst : s.app.stage ≠ .ESTIMATION_ANALYSIS := fun h => hne (by simp [h, stageNext])
      simp only [step]; split_ifs; all_goals simp_all

theorem wrong_target_illegal (s : SysState) (e : Event) (t : AppStage)
    (hb : s.app.isProcessing = false) (ht : opTarget e = some t)
    (hne : stageNext s.app.stage ≠ some t) :
    (step s e).2 = some AppError.IllegalTransitionError := by
  cases e with
  | editProblem u => simp [opTarget] at ht
  | editCounterfactual u => simp [opTarget] at ht
  | completeProblemSubmit r => simp [opTarget] at ht
  | completeGenerateData r => simp [opTarget] at ht
  | completeProceedToAnalysis r => simp [opTarget] at ht
  | completeRunCounterfactual r => simp [opTarget] at ht
  | startRunCounterfactual => simp [opTarget] at ht
  | startProblemSubmit =>
      injection ht with ht; subst ht
      have hst : s.app.stage ≠ .PROBLEM_DEFINITION := fun h => hne (by simp [h, stageNext])
      simp only [step]; split_ifs <;> simp_all
  | startGenerateData =>
      injection ht with ht; subst ht
      have hst : s.app.stage ≠ .MODEL_CONSTRUCTION := fun h => hne (by simp [h, stageNext])
      simp only [step]; split_ifs <;> simp_all
  | startProceedToAnalysis =>
      injection ht with ht; subst ht
      have hst : s.app.stage ≠ .DATA_GENERATION := fun h => hne (by simp [h, stageNext])
      simp only [step]; split_ifs <;> simp_all
  | proceedToCounterfactual =>
      injection ht with ht; subst ht
      have hst : s.app.stage ≠ .ESTIMATION_ANALYSIS := fun h => hne (by simp [h, stageNext])
      simp only [step]; split_ifs; all_goals simp_all

/-- Equality of the Workflow State fields named by the spec's atomicity
policy: current stage, model logic text, baseline result, analysis report and
counterfactual result (the in-flight flag and the two editable input texts are
not part of this list). -/
def workflowEq (a b : AppState) : Prop :=
  a.stage = b.stage ∧ a.modelLogic = b.modelLogic ∧ a.baselineData = b.baselineData ∧
  a.analysisReport = b.analysisReport ∧ a.counterfactualData = b.counterfactualData

theorem analyzeEquilibrium_ne_empty (r : Except Unit (Option String)) :
    analyzeEquilibrium r ≠ "" := by
  cases r with
  | error e => simp [analyzeEquilibrium]
  | ok t =>
      cases t with
      | none => simp [analyzeEquilibrium]
      | some u =>
          simp only [analyzeEquilibrium]
          split_ifs with h
          · simp
          · exact h

/-- A structurally valid simulation result, as generated by a cooperative
collaborator: used to drive the concrete runs below. -/
def sampleJson : Json :=
  Json.obj
    [("description", Json.str "baseline equilibrium"),
     ("locations", Json.arr
        [Json.obj
          [("id", Json.str "1"), ("name", Json.str "City A"),
           ("population", Json.num 100), ("wages", Json.num 10),
           ("rents", Json.num 5), ("amenity", Json.num 1),
           ("productivity", Json.num 1)]]),
     ("parameters", Json.obj [("alpha", Json.num (3/10)), ("sigma", Json.num 4)]),
     ("totalWelfare", Json.num 1000)]

/-- A collaborator response that is well-formed JSON but does not conform to
the Simulation Result schema (an object with no fields at all). -/
def badJson : Json := Json.obj []

/-- Concrete run of the system, used by several witnesses: submit the problem
and let the call succeed. -/
def trace1 : SysState := (step initState .startProblemSubmit).1

def trace2 : SysState := (step trace1 (.completeProblemSubmit (.ok "model text"))).1

def trace3 : SysState := (step trace2 .startGenerateData).1

def trace4 : SysState := (step trace3 (.completeGenerateData (.ok sampleJson))).1

def trace5 : SysState := (step trace4 .startProceedToAnalysis).1

def trace6 : SysState := (step trace5 (.completeProceedToAnalysis (.ok (some "report")))).1

def trace7 : SysState := (step trace6 .proceedToCounterfactual).1

def trace8 : SysState := (step trace7 .startRunCounterfactual).1

/-- C1: the current Stage only ever changes to the immediate successor in the
fixed linear order; an attempt to move to a stage that is not the immediate
successor of the current stage is rejected with the entire state (hence the
Stage) unchanged, and — whenever the machine is not already busy with an
outstanding call, in which case the spec's own single-in-flight clause
attributes the rejection to `BusyError` instead — the rejection is
`IllegalTransitionError`.  In the source the rejection is the button for the
operation not being rendered at the current stage. -/
theorem C1_stage_advances_only_to_successor :
    (∀ s : SysState, Reachable s → ∀ e : Event,
        (step s e).1.app.stage = s.app.stage ∨
          some (step s e).1.app.stage = stageNext s.app.stage) ∧
    (∀ (s : SysState) (e : Event) (t : AppStage), opTarget e = some t →
        stageNext s.app.stage ≠ some t →
        (step s e).1 = s ∧ (step s e).2.isSome = true) ∧
    (∀ (s : SysState) (e : Event) (t : AppStage), s.app.isProcessing = false →
        opTarget e = some t → stageNext s.app.stage ≠ some t →
        (step s e).2 = some AppError.IllegalTransitionError) :=
  ⟨fun s hs e => stage_step_succ s (reachable_inv s hs) e,
   fun s e t ht hne => wrong_target_rejected s e t ht hne,
   fun s e t hb ht hne => wrong_target_illegal s e t hb ht hne⟩

theorem C1_witness :
    ((step initState Event.startGenerateData).1.app.stage = initState.app.stage ∨
      some (step initState Event.startGenerateData).1.app.stage =
        stageNext initState.app.stage) ∧
    ((step initState Event.startGenerateData).1 = initState ∧
      (step initState Event.startGenerateData).2.isSome = true) ∧
    (step initState Event.startGenerateData).2 = some AppError.IllegalTransitionError :=
  ⟨C1_stage_advances_only_to_successor.1 initState Reachable.init .startGenerateData,
   C1_stage_advances_only_to_successor.2.1 initState .startGenerateData
     .DATA_GENERATION rfl (by decide),
   C1_stage_advances_only_to_successor.2.2 initState .startGenerateData
     .DATA_GENERATION rfl rfl (by decide)⟩

/-- C5: while the in-flight flag is set, starting any of the four
collaborator-backed stage-transition operations is rejected with `BusyError`
and the entire state is left unchanged; and, concretely, an attempt to run the
counterfactual while `generateData` is outstanding is rejected busy, while
after that call completes (and the workflow walks forward to the
Counterfactual stage) the same attempt succeeds. -/
theorem C5_single_in_flight :
    (∀ s : SysState, s.app.isProcessing = true →
        step s .startProblemSubmit = (s, some AppError.BusyError) ∧
        step s .startGenerateData = (s, some AppError.BusyError) ∧
        step s .startProceedToAnalysis = (s, some AppError.BusyError) ∧
        step s .startRunCounterfactual = (s, some AppError.BusyError)) ∧
    (trace3.pending = Pending.generateData ∧
      trace3.app.isProcessing = true ∧
      step trace3 .startRunCounterfactual = (trace3, some AppError.BusyError) ∧
      (step trace7 .startRunCounterfactual).2 = none ∧
      (step trace7 .startRunCounterfactual).1.pending = Pending.runCounterfactual) := by
  constructor
  · intro s h
    refine ⟨?_, ?_, ?_, ?_⟩ <;> simp [step, h]
  · exact ⟨rfl, rfl, rfl, rfl, rfl⟩

theorem C5_witness :
    step trace3 .startProblemSubmit = (trace3, some AppError.BusyError) ∧
    step trace3 .startGenerateData = (trace3, some AppError.BusyError) ∧
    step trace3 .startProceedToAnalysis = (trace3, some AppError.BusyError) ∧
    step trace3 .startRunCounterfactual = (trace3, some AppError.BusyError) :=
  C5_single_in_flight.1 trace3 rfl

/-- C7: a blank problem statement is rejected by `submitProblem` and a blank
shock description by `runCounterfactual`, in both cases before the in-flight
flag is set or any collaborator call is started (the returned state is
exactly the input state, so no pending call exists and nothing changed).  In
the source these are the early returns on `!problemInput.trim()` and
`!counterfactualInput.trim()`. -/
theorem C7_blank_input_rejected :
    (∀ s : SysState, s.app.isProcessing = false →
        s.app.stage = .PROBLEM_DEFINITION → isBlank s.app.problemInput = true →
        step s .startProblemSubmit = (s, some AppError.EmptyInputError)) ∧
    (∀ s : SysState, s.app.isProcessing = false →
        s.app.stage = .COUNTERFACTUAL → s.app.baselineData.isSome →
        isBlank s.app.counterfactualInput = true →
        step s .startRunCounterfactual = (s, some AppError.EmptyInputError)) := by
  constructor
  · intro s hb hs he
    simp [step, hb, hs, he]
  · intro s hb hs hbl he
    obtain ⟨j, hj⟩ := Option.isSome_iff_exists.mp hbl
    simp [step, hb, hs, hj, he]

/-- A state at the Problem Definition stage whose problem text is blank. -/
def blankProblemState : SysState :=
  { app :=
      { stage := .PROBLEM_DEFINITION
        problemInput := "   "
        isProcessing := false
        modelLogic := ""
        baselineData := none
        analysisReport := ""
        counterfactualInput := "shock"
        counterfactualData := none }
    pending := .idle }

/-- A state at the Counterfactual stage whose shock text is blank. -/
def blankShockState : SysState :=
  { app :=
      { stage := .COUNTERFACTUAL
        problemInput := "problem"
        isProcessing := false
        modelLogic := "model"
        baselineData := some sampleJson
        analysisReport := "report"
        counterfactualInput := " "
        counterfactualData := none }
    pending := .idle }

theorem C7_witness :
    step blankProblemState .startProblemSubmit =
      (blankProblemState, some AppError.EmptyInputError) ∧
    step blankShockState .startRunCounterfactual =
      (blankShockState, some AppError.EmptyInputError) :=
  ⟨C7_blank_input_rejected.1 blankProblemState rfl rfl (by decide),
   C7_blank_input_rejected.2 blankShockState rfl rfl rfl (by decide)⟩

/-- C9: when the collaborator call inside `analyzeEquilibrium` fails, the
wrapper returns the fixed string "Error generating analysis report." as a
normal result (its own catch block, src/services/geminiService.ts), so the
completion of `proceedToAnalysis` reports no failure, stores that string as
the analysis report, and still advances the stage to Estimation/Analysis. -/
theorem C9_analysis_failure_swallowed :
    analyzeEquilibrium (Except.error ()) = "Error generating analysis report." ∧
    (∀ s : SysState, s.pending = Pending.proceedToAnalysis →
        step s (.completeProceedToAnalysis (.error ())) =
          ({ app := { s.app with
                        analysisReport := "Error generating analysis report."
                        stage := .ESTIMATION_ANALYSIS
                        isProcessing := false }
             pending := .idle }, none)) := by
  constructor
  · rfl
  · intro s hp
    simp [step, hp, analyzeEquilibrium]

theorem C9_witness :
    step trace5 (.completeProceedToAnalysis (.error ())) =
      ({ app := { trace5.app with
                    analysisReport := "Error generating analysis report."
                    stage := .ESTIMATION_ANALYSIS
                    isProcessing := false }
         pending := .idle }, none) :=
  C9_analysis_failure_swallowed.2 trace5 rfl

/-- C6: `proceedToAnalysis` memoizes the analysis report.  When a report is
already present (and the operation is invocable: not busy, at Data
Generation, with a baseline), the operation advances to Estimation/Analysis
synchronously, leaving the stored report and every other field untouched and
starting no collaborator call (the pending slot stays as it was).  Moreover,
after a completed first call the stored report is never empty, and a second
invocation of the operation makes no collaborator call and leaves the stored
report in place (the operation completed at Estimation/Analysis, where its
button is no longer rendered, so the second attempt is rejected with the
state unchanged). -/
theorem C6_analysis_memoized :
    (∀ s : SysState, s.app.isProcessing = false → s.app.stage = .DATA_GENERATION →
        s.app.baselineData.isSome → s.app.analysisReport ≠ "" →
        step s .startProceedToAnalysis =
          ({ s with app := { s.app with stage := .ESTIMATION_ANALYSIS } }, none)) ∧
    (∀ (s : SysState) (r : Except Unit (Option String)),
        s.pending = Pending.proceedToAnalysis →
        (step s (.completeProceedToAnalysis r)).1.app.analysisReport ≠ "" ∧
        (step (step s (.completeProceedToAnalysis r)).1 .startProceedToAnalysis).1 =
          (step s (.completeProceedToAnalysis r)).1) := by
  constructor
  · intro s hb hs hbl hr
    obtain ⟨j, hj⟩ := Option.isSome_iff_exists.mp hbl
    simp [step, hb, hs, hj, hr]
  · intro s r hp
    constructor
    · simpa [step, hp] using analyzeEquilibrium_ne_empty r
    · simp [step, hp]

/-- A state at Data Generation with a baseline and an already-present
analysis report. -/
def memoState : SysState :=
  { app :=
      { stage := .DATA_GENERATION
        problemInput := "problem"
        isProcessing := false
        modelLogic := "model"
        baselineData := some sampleJson
        analysisReport := "cached report"
        counterfactualInput := "shock"
        counterfactualData := none }
    pending := .idle }

theorem C6_witness :
    step memoState .startProceedToAnalysis =
      ({ memoState with app := { memoState.app with stage := .ESTIMATION_ANALYSIS } },
       none) ∧
    ((step trace5 (.completeProceedToAnalysis (.ok (some "report")))).1.app.analysisReport ≠ "" ∧
      (step (step trace5 (.completeProceedToAnalysis (.ok (some "report")))).1
          .startProceedToAnalysis).1 =
        (step trace5 (.completeProceedToAnalysis (.ok (some "report")))).1) :=
  ⟨C6_analysis_memoized.1 memoState rfl rfl rfl (by decide),
   C6_analysis_memoized.2 trace5 (.ok (some "report")) rfl⟩

/-- C4 counterexample: the claim fails for `proceedToAnalysis`.  At the
reachable state `trace5` its collaborator call is outstanding; when that call
fails, the operation does not leave the Workflow State at its prior value: the
stage advances from Data Generation to Estimation/Analysis and the analysis
report changes from empty to the fixed error string. -/
theorem C4_counterexample :
    trace5.pending = Pending.proceedToAnalysis ∧
    (step trace5 (.completeProceedToAnalysis (.error ()))).1.app.stage ≠
      trace5.app.stage ∧
    (step trace5 (.completeProceedToAnalysis (.error ()))).1.app.analysisReport ≠
      trace5.app.analysisReport := by
  refine ⟨rfl, by decide, by decide⟩

/-- C4 (amended): `submitProblem`, `generateData` and `runCounterfactual` are
atomic with respect to collaborator failure — on a failed call the five
Workflow State fields are exactly as before and the failure is surfaced — but
`proceedToAnalysis` is not: `analyzeEquilibrium` converts the failure into a
fixed report string, which is committed, and the stage still advances to
Estimation/Analysis. -/
theorem C4_atomic_on_failure_except_analysis :
    (∀ s : SysState, s.pending = Pending.problemSubmit →
        workflowEq (step s (.completeProblemSubmit (.error ()))).1.app s.app ∧
        (step s (.completeProblemSubmit (.error ()))).2 = some AppError.CollaboratorError) ∧
    (∀ s : SysState, s.pending = Pending.generateData →
        workflowEq (step s (.completeGenerateData (.error ()))).1.app s.app ∧
        (step s (.completeGenerateData (.error ()))).2 = some AppError.CollaboratorError) ∧
    (∀ s : SysState, s.pending = Pending.runCounterfactual →
        workflowEq (step s (.completeRunCounterfactual (.error ()))).1.app s.app ∧
        (step s (.completeRunCounterfactual (.error ()))).2 = some AppError.CollaboratorError) ∧
    (∀ s : SysState, s.pending = Pending.proceedToAnalysis →
        (step s (.completeProceedToAnalysis (.error ()))).1.app.stage =
          AppStage.ESTIMATION_ANALYSIS ∧
        (step s (.completeProceedToAnalysis (.error ()))).1.app.analysisReport =
          "Error generating analysis report.") := by
  refine ⟨?_, ?_, ?_, ?_⟩ <;> intro s hp
  · exact ⟨by simp [workflowEq, step, hp], by simp [step, hp]⟩
  · exact ⟨by simp [workflowEq, step, hp], by simp [step, hp]⟩
  · exact ⟨by simp [workflowEq, step, hp], by simp [step, hp]⟩
  · constructor <;> simp [step, hp, analyzeEquilibrium]

theorem C4_witness :
    (workflowEq (step trace1 (.completeProblemSubmit (.error ()))).1.app trace1.app ∧
      (step trace1 (.completeProblemSubmit (.error ()))).2 = some AppError.CollaboratorError) ∧
    (workflowEq (step trace3 (.completeGenerateData (.error ()))).1.app trace3.app ∧
      (step trace3 (.completeGenerateData (.error ()))).2 = some AppError.CollaboratorError) ∧
    (workflowEq (step trace8 (.completeRunCounterfactual (.error ()))).1.app trace8.app ∧
      (step trace8 (.completeRunCounterfactual (.error ()))).2 = some AppError.CollaboratorError) ∧
    ((step trace5 (.completeProceedToAnalysis (.error ()))).1.app.stage =
        AppStage.ESTIMATION_ANALYSIS ∧
      (step trace5 (.completeProceedToAnalysis (.error ()))).1.app.analysisReport =
        "Error generating analysis report.") :=
  ⟨C4_atomic_on_failure_except_analysis.1 trace1 rfl,
   C4_atomic_on_failure_except_analysis.2.1 trace3 rfl,
   C4_atomic_on_failure_except_analysis.2.2.1 trace8 rfl,
   C4_atomic_on_failure_except_analysis.2.2.2 trace5 rfl⟩

/-- C3 counterexample: the claim fails on the code.  There is no client-side
schema validator: at the reachable state `trace3` (the `generateData` call is
outstanding), a collaborator response that parses to `badJson` — an object
with no `locations` and no `parameters`, rejected by the spec's validator —
is committed verbatim into the baseline slot and the stage advances, with no
failure reported (the model's error type does not even contain a
`SchemaError`, because the source never raises one). -/
theorem C3_counterexample :
    specSchemaValidator badJson = false ∧
    (step trace3 (.completeGenerateData (.ok badJson))).1.app.baselineData =
      some badJson ∧
    (step trace3 (.completeGenerateData (.ok badJson))).1.app.stage =
      AppStage.DATA_GENERATION ∧
    (step trace3 (.completeGenerateData (.ok badJson))).2 = none :=
  ⟨rfl, rfl, rfl, rfl⟩

/-- C3 (amended): the client performs no schema validation.  A successfully
parsed collaborator response is stored into application state unchanged,
whatever its shape, and the stage advances; the only client-side gate is that
the call and the JSON parse did not throw, in which case nothing is committed
(schema conformance is merely requested of the service through the
`responseSchema` request configuration). -/
theorem C3_parsed_response_stored_unvalidated :
    (∀ (s : SysState) (j : Json), s.pending = Pending.generateData →
        step s (.completeGenerateData (.ok j)) =
          ({ app := { s.app with
                        baselineData := some j
                        stage := .DATA_GENERATION
                        isProcessing := false }
             pending := .idle }, none)) ∧
    (∀ (s : SysState) (j : Json), s.pending = Pending.runCounterfactual →
        step s (.completeRunCounterfactual (.ok j)) =
          ({ app := { s.app with
                        counterfactualData := some j
                        isProcessing := false }
             pending := .idle }, none)) ∧
    (∀ s : SysState, s.pending = Pending.generateData →
        workflowEq (step s (.completeGenerateData (.error ()))).1.app s.app) := by
  refine ⟨?_, ?_, ?_⟩ <;> intro s
  · intro j hp; simp [step, hp]
  · intro j hp; simp [step, hp]
  · intro hp; simp [workflowEq, step, hp]

theorem C3_witness :
    step trace3 (.completeGenerateData (.ok badJson)) =
      ({ app := { trace3.app with
                    baselineData := some badJson
                    stage := .DATA_GENERATION
                    isProcessing := false }
         pending := .idle }, none) ∧
    step trace8 (.completeRunCounterfactual (.ok badJson)) =
      ({ app := { trace8.app with
                    counterfactualData := some badJson
                    isProcessing := false }
         pending := .idle }, none) :=
  ⟨C3_parsed_response_stored_unvalidated.1 trace3 badJson rfl,
   C3_parsed_response_stored_unvalidated.2.1 trace8 badJson rfl⟩

/-- A location record (`LocationData` in src/types.ts), with the numeric
fields as rationals. -/
structure LocationData where
  id : String
  name : String
  population : ℚ
  wages : ℚ
  rents : ℚ
  amenity : ℚ
  productivity : ℚ
deriving DecidableEq

/-- A value of a merged chart-record field: the `name` entry holds a string,
every other entry a number. -/
inductive CellVal
  | s (v : String)
  | n (v : ℚ)
deriving DecidableEq

/-- The baseline part of a merged chart record: the object literal
`name / Population / Wages / Rents` built by `DataVisualizer` for every
baseline record (src/components/DataVisualizer.tsx). -/
def baseRecord (d : LocationData) : List (String × CellVal) :=
  [("name", CellVal.s d.name), ("Population", CellVal.n d.population),
   ("Wages", CellVal.n d.wages), ("Rents", CellVal.n d.rents)]

/-- The counterfactual-labelled fields spread into a merged chart record when
a counterfactual record with the same id was found. -/
def cfFields (c : LocationData) : List (String × CellVal) :=
  [("Pop (CF)", CellVal.n c.population), ("Wages (CF)", CellVal.n c.wages),
   ("Rents (CF)", CellVal.n c.rents)]

/-- One merged chart record: `comparisonData?.find(c => c.id === d.id)` picks
the first counterfactual record with the baseline record's id (or nothing if
the comparison list is absent or holds no match), and the conditional spread
appends its labelled fields.  Modelled as an ordered key/value list, the
shape of the produced JavaScript object. -/
def chartRecord (d : LocationData) (comparisonData : Option (List LocationData)) :
    List (String × CellVal) :=
  match comparisonData.bind (fun cd => cd.find? (fun c => c.id == d.id)) with
  | some comp => baseRecord d ++ cfFields comp
  | none => baseRecord d

/-- The merge performed by `DataVisualizer`: `data.map(d => ...)` over the
baseline list. -/
def chartData (data : List LocationData)
    (comparisonData : Option (List LocationData)) : List (List (String × CellVal)) :=
  data.map (fun d => chartRecord d comparisonData)

/-- Value stored under key `k` in a merged chart record, if any. -/
def recordLookup (r : List (String × CellVal)) (k : String) : Option CellVal :=
  (r.find? (fun p => p.1 == k)).map (fun p => p.2)

theorem find?_filter_of_imp {α : Type} (p q : α → Bool) (l : List α)
    (h : ∀ x, p x = true → q x = true) :
    (l.filter q).find? p = l.find? p := by
  induction l with
  | nil => rfl
  | cons x xs ih =>
      by_cases hp : p x = true
      · have hq := h x hp
        simp [List.filter_cons, hq, List.find?_cons, hp]
      · have hp2 : p x = false := by simpa using hp
        by_cases hq : q x = true
        · simp [List.filter_cons, hq, List.find?_cons, hp2, ih]
        · have hq2 : q x = false := by simpa using hq
          simp [List.filter_cons, hq2, List.find?_cons, hp2, ih]

/-- C2: the merge produces exactly one output record per baseline record, in
baseline order; the record produced for the i-th baseline record carries the
counterfactual-labelled fields exactly when some counterfactual record shares
its id (and is otherwise the baseline fields alone); with the comparison list
absent every record is baseline-only; and counterfactual records whose id
matches no baseline record contribute nothing (dropping them leaves the
output unchanged). -/
theorem C2_merge_one_record_per_baseline (data : List LocationData) :
    (∀ cf? : Option (List LocationData), (chartData data cf?).length = data.length) ∧
    (chartData data none = data.map baseRecord) ∧
    (∀ (cf : List LocationData) (i : ℕ) (d : LocationData), data[i]? = some d →
        ∀ r, (chartData data (some cf))[i]? = some r →
          ((∃ c ∈ cf, c.id = d.id) →
              ∃ c, c ∈ cf ∧ c.id = d.id ∧ r = baseRecord d ++ cfFields c) ∧
          ((¬ ∃ c ∈ cf, c.id = d.id) → r = baseRecord d)) ∧
    (∀ cf : List LocationData,
        chartData data (some cf) =
          chartData data (some (cf.filter (fun c => data.any (fun b => b.id == c.id))))) := by
  refine ⟨?_, ?_, ?_, ?_⟩
  · intro cf?
    simp [chartData]
  · simp [chartData, chartRecord]
  · intro cf i d hd r hr
    have hform : r = chartRecord d (some cf) := by
      rw [chartData, List.getElem?_map, hd] at hr
      exact (Option.some_injective _ hr).symm
    constructor
    · rintro ⟨c, hc, hid⟩
      have hsome : (cf.find? (fun x => x.id == d.id)).isSome := by
        rw [List.find?_isSome]
        exact ⟨c, hc, by simpa using hid⟩
      obtain ⟨c0, hc0⟩ := Option.isSome_iff_exists.mp hsome
      refine ⟨c0, List.mem_of_find?_eq_some hc0, ?_, ?_⟩
      · simpa using List.find?_some hc0
      · rw [hform, chartRecord]
        simp [hc0]
    · intro hno
      have hnone : cf.find? (fun x => x.id == d.id) = none := by
        rw [List.find?_eq_none]
        intro x hx
        simp only [beq_iff_eq]
        exact fun hid => hno ⟨x, hx, hid⟩
      rw [hform, chartRecord]
      simp [hnone]
  · intro cf
    rw [chartData, chartData]
    refine List.map_congr_left ?_
    intro d hd
    have hfind : (cf.filter (fun c => data.any (fun b => b.id == c.id))).find?
        (fun c => c.id == d.id) = cf.find? (fun c => c.id == d.id) := by
      refine find?_filter_of_imp _ _ cf ?_
      intro x hx
      rw [List.any_eq_true]
      refine ⟨d, hd, ?_⟩
      simpa using (beq_iff_eq.mp hx).symm
    simp [chartRecord, hfind]

/-- The baseline record of the spec's merge correctness example. -/
def exBase : LocationData :=
  { id := "1", name := "A", population := 100, wages := 10, rents := 5,
    amenity := 1, productivity := 1 }

/-- The counterfactual record of the spec's merge correctness example. -/
def exCF : LocationData :=
  { id := "1", name := "A", population := 120, wages := 12, rents := 6,
    amenity := 1, productivity := 6/5 }

theorem C2_witness :
    (chartData [exBase] (some [exCF])).length = 1 ∧
    (∃ c, c ∈ [exCF] ∧ c.id = exBase.id ∧
        chartRecord exBase (some [exCF]) = baseRecord exBase ++ cfFields c) ∧
    chartData [exBase] none = [exBase].map baseRecord := by
  refine ⟨?_, ?_, ?_⟩
  · exact (C2_merge_one_record_per_baseline [exBase]).1 (some [exCF])
  · exact ((C2_merge_one_record_per_baseline [exBase]).2.2.1 [exCF] 0 exBase rfl
      (chartRecord exBase (some [exCF])) rfl).1 ⟨exCF, by simp, rfl⟩
  · exact (C2_merge_one_record_per_baseline [exBase]).2.1

/-- First of two counterfactual records sharing the id of `exBase`. -/
def dupCF1 : LocationData :=
  { id := "1", name := "A", population := 120, wages := 12, rents := 6,
    amenity := 1, productivity := 1 }

/-- Second (last) of two counterfactual records sharing the id of `exBase`. -/
def dupCF2 : LocationData :=
  { id := "1", name := "A", population := 999, wages := 99, rents := 66,
    amenity := 1, productivity := 1 }

/-- A counterfactual record whose id matches no baseline record. -/
def otherCF : LocationData :=
  { id := "2", name := "B", population := 50, wages := 8, rents := 3,
    amenity := 1, productivity := 1 }

/-- C8 counterexample: with two counterfactual records carrying the same id,
the merged record is built from the FIRST such record in the counterfactual
sequence (population 120), not the last (population 999): `Array.find` in
src/components/DataVisualizer.tsx returns the first match, so last-write-wins
fails at this input. -/
theorem C8_counterexample :
    ([dupCF1, dupCF2].reverse.find? (fun c => c.id == exBase.id)) = some dupCF2 ∧
    chartData [exBase] (some [dupCF1, dupCF2]) =
      [baseRecord exBase ++ cfFields dupCF1] ∧
    recordLookup (chartRecord exBase (some [dupCF1, dupCF2])) "Pop (CF)" =
      some (CellVal.n 120) ∧
    CellVal.n 120 ≠ CellVal.n 999 := by
  refine ⟨rfl, rfl, rfl, by decide⟩

/-- C8 (amended): duplicated counterfactual ids do not crash the merge — the
merge is a total function evaluated below at the duplicated input — and the
record associated to the id is the first record with that id in the
counterfactual sequence (first-write-wins), any records before it having a
different id. -/
theorem C8_duplicate_ids_first_wins (d : LocationData) (cf1 cf2 : List LocationData)
    (c : LocationData) (h1 : ∀ x ∈ cf1, x.id ≠ d.id) (h2 : c.id = d.id) :
    chartRecord d (some (cf1 ++ c :: cf2)) = baseRecord d ++ cfFields c := by
  have hfind : ∀ l : List LocationData, (∀ x ∈ l, x.id ≠ d.id) →
      (l ++ c :: cf2).find? (fun x => x.id == d.id) = some c := by
    intro l
    induction l with
    | nil =>
        intro _
        simp [List.find?_cons, h2]
    | cons y ys ih =>
        intro hl
        have hy : (y.id == d.id) = false := by
          simpa using hl y (by simp)
        simp only [List.cons_append, List.find?_cons, hy]
        exact ih (fun x hx => hl x (by simp [hx]))
  simp [chartRecord, hfind cf1 h1]

theorem C8_witness :
    chartRecord exBase (some ([otherCF] ++ dupCF1 :: [dupCF2])) =
      baseRecord exBase ++ cfFields dupCF1 :=
  C8_duplicate_ids_first_wins exBase [otherCF] [dupCF2] dupCF1 (by decide) rfl

theorem baseRecord_key_mem (d : LocationData) :
    ∀ kv ∈ baseRecord d, kv.1 ∈ (["name", "Population", "Wages", "Rents",
      "Pop (CF)", "Wages (CF)", "Rents (CF)"] : List String) := by
  intro kv hkv
  simp only [baseRecord, List.mem_cons, List.not_mem_nil, or_false] at hkv
  rcases hkv with rfl | rfl | rfl | rfl <;> simp

theorem merged_key_mem (d c : LocationData) :
    ∀ kv ∈ baseRecord d ++ cfFields c, kv.1 ∈ (["name", "Population", "Wages",
      "Rents", "Pop (CF)", "Wages (CF)", "Rents (CF)"] : List String) := by
  intro kv hkv
  simp only [baseRecord, cfFields, List.append_eq, List.cons_append, List.nil_append,
    List.mem_cons, List.not_mem_nil, or_false] at hkv
  rcases hkv with rfl | rfl | rfl | rfl | rfl | rfl | rfl <;> simp

/-- C10: every merged comparison record is either the four baseline display
fields alone or those four plus the three counterfactual-labelled fields of
some record; in particular its keys all lie in the seven chart keys and it
carries no `id`, `amenity` or `productivity` entry from either input
record. -/
theorem C10_merged_record_keys (data : List LocationData)
    (cf? : Option (List LocationData)) (i : ℕ) (r : List (String × CellVal))
    (h : (chartData data cf?)[i]? = some r) :
    (∃ d, data[i]? = some d ∧
        (r = baseRecord d ∨ ∃ c, r = baseRecord d ++ cfFields c)) ∧
    (∀ kv ∈ r, kv.1 ∈ (["name", "Population", "Wages", "Rents",
        "Pop (CF)", "Wages (CF)", "Rents (CF)"] : List String)) ∧
    recordLookup r "id" = none ∧
    recordLookup r "amenity" = none ∧
    recordLookup r "productivity" = none := by
  rw [chartData, List.getElem?_map] at h
  rcases hd : data[i]? with _ | d
  · rw [hd] at h
    exact absurd h (by simp)
  · rw [hd] at h
    have hr : r = chartRecord d cf? := by simpa using h.symm
    have hshape : r = baseRecord d ∨ ∃ c, r = baseRecord d ++ cfFields c := by
      rw [hr, chartRecord]
      cases hf : cf?.bind (fun cd => cd.find? (fun c => c.id == d.id)) with
      | none => left; rfl
      | some c => right; exact ⟨c, rfl⟩
    refine ⟨⟨d, rfl, hshape⟩, ?_, ?_, ?_, ?_⟩
    · rcases hshape with h1 | ⟨c, h1⟩ <;> subst h1
      · exact baseRecord_key_mem d
      · exact merged_key_mem d c
    · rcases hshape with h1 | ⟨c, h1⟩ <;> subst h1 <;> rfl
    · rcases hshape with h1 | ⟨c, h1⟩ <;> subst h1 <;> rfl
    · rcases hshape with h1 | ⟨c, h1⟩ <;> subst h1 <;> rfl

theorem C10_witness :
    (∃ d, ([exBase] : List LocationData)[0]? = some d ∧
        (chartRecord exBase (some [exCF]) = baseRecord d ∨
          ∃ c, chartRecord exBase (some [exCF]) = baseRecord d ++ cfFields c)) ∧
    (∀ kv ∈ chartRecord exBase (some [exCF]), kv.1 ∈ (["name", "Population",
        "Wages", "Rents", "Pop (CF)", "Wages (CF)", "Rents (CF)"] : List String)) ∧
    recordLookup (chartRecord exBase (some [exCF])) "id" = none ∧
    recordLookup (chartRecord exBase (some [exCF])) "amenity" = none ∧
    recordLookup (chartRecord exBase (some [exCF])) "productivity" = none :=
  C10_merged_record_keys [exBase] (some [exCF]) 0 (chartRecord exBase (some [exCF])) rfl

end QSEArchitect
